import Mathlib

/-!
Shallow embedding of the BetterMann backend (main.py and schemas.py):
the entity record shapes, the document-store gateway, and the endpoint
handlers as pure functions over an optional store state.

The database module itself is not among the sources (only its callers
are), so the three gateway primitives and the store handle are modelled
from the design document, section 4.2: an uninitialized handle makes
every gateway operation fail with the StoreUnavailable error, findOne
returns the first matching document, find returns up to a limit of
matching documents in store order, and insert appends a record and
returns a fresh store-assigned identifier.

Text fields are modelled as lists of characters.  The MongoDB filters
built by the handlers use literal regex patterns with the
case-insensitive option, which on these inputs are case-insensitive
substring tests; a regex or equality filter on an array field holds
when some element of the array matches, and a filter on an absent
optional field does not match.  Python truthiness of an optional string
parameter (None and the empty string are falsy, so no filter clause is
added for them) is modelled by the emptiness test inside each clause.
-/

namespace BetterMann

/-- Text values (Python strings) modelled as lists of characters. -/
abbrev Str : Type := List Char

/-- Text literal helper: the character list of a Lean string literal. -/
def str (s : String) : Str := s.data

/-- Lower-case a text value, used for case-insensitive matching. -/
def lower (s : Str) : Str := s.map Char.toLower

/-- MongoDB literal regex with the case-insensitive option: the pattern
occurs in the field value as a case-insensitive substring. -/
def ciContains (hay pat : Str) : Bool := decide (lower pat <:+: lower hay)

/-- Python endswith on text values. -/
def endsWith (s tl : Str) : Bool := tl.isSuffixOf s

/-- Service-level error taxonomy: the HTTP error responses raised in
main.py plus the StoreUnavailable failure of the modelled gateway. -/
inductive Err where
  | storeUnavailable
  | duplicateEmail
  | notFound
  | invalidCredentials
  | validationError (field : Str)
deriving Repr, DecidableEq

/-- User record shape from schemas.py.  The optional language keeps its
declared default; request parsing always supplies it in main.py. -/
structure User where
  name : Str
  email : Str
  password_hash : Str
  phone : Option Str := none
  language : Str := str "en"
  city : Option Str := none
  is_active : Bool := true
  role : Str := str "user"
deriving Repr, DecidableEq

/-- Therapist record shape from schemas.py (the validated form). -/
structure Therapist where
  name : Str
  email : Str
  bio : Option Str := none
  education : Option Str := none
  specialties : List Str := []
  experience_years : Int := 0
  languages : List Str := [str "English"]
  gender : Option Str := none
  city : Option Str := none
  price_per_week_inr : Int := 0
  rating : ℚ := 24 / 5
  photo_url : Option Str := none
  slots : List Str := []
deriving Repr, DecidableEq

/-- Review record shape from schemas.py; the optional timestamp is kept
as opaque text. -/
structure Review where
  user_name : Str
  rating : Int
  comment : Str
  city : Option Str := none
  created_at : Option Str := none
deriving Repr, DecidableEq

/-- BlogPost record shape from schemas.py; the optional timestamp is
kept as opaque text. -/
structure BlogPost where
  title : Str
  slug : Str
  excerpt : Str
  content : Str
  tags : List Str := []
  cover_image : Option Str := none
  published_at : Option Str := none
deriving Repr, DecidableEq

/-- FAQ record shape from schemas.py. -/
structure FAQ where
  question : Str
  answer : Str
  category : Option Str := none
deriving Repr, DecidableEq

/-- Plan record shape from schemas.py; plans are never persisted. -/
structure Plan where
  name : Str
  price_inr : Int
  period : Str := str "per week"
  features : List Str := []
deriving Repr, DecidableEq

/-- Signup request body from main.py. -/
structure SignupRequest where
  name : Str
  email : Str
  password : Str
  language : Str := str "en"
deriving Repr, DecidableEq

/-- Login request body from main.py. -/
structure LoginRequest where
  email : Str
  password : Str
deriving Repr, DecidableEq

/-- Match request body from schemas.py. -/
structure MatchRequest where
  age : Option Int := none
  concerns : List Str := []
  language : Option Str := none
  gender_preference : Option Str := none
  city : Option Str := none
deriving Repr, DecidableEq

/-- Response shape shared by signup and login: the new or found record
identifier plus the public profile fields. -/
structure AuthResponse where
  id : Nat
  name : Str
  email : Str
deriving Repr, DecidableEq

/-- A stored document: a record together with its store-assigned
identifier (rendered to clients as an opaque string). -/
structure Doc (α : Type) where
  id : Nat
  data : α
deriving Repr, DecidableEq

/-- The document store, one collection per entity type reached by the
claims; the write-only contact and session collections are omitted. -/
structure Store where
  users : List (Doc User) := []
  therapists : List (Doc Therapist) := []
  reviews : List (Doc Review) := []
  blogposts : List (Doc BlogPost) := []
  faqs : List (Doc FAQ) := []
deriving Repr, DecidableEq

/-- Modelled from the spec: section 4.2 findOne of the absent database
module, returning the first matching document or an absence marker. -/
def findOne {α : Type} (l : List α) (p : α → Bool) : Option α := l.find? p

/-- Modelled from the spec: section 4.2 find of the absent database
module, returning up to a limit of matching documents in store order. -/
def get_documents {α : Type} (l : List α) (p : α → Bool) (lim : Nat) : List α :=
  (l.filter p).take lim

/-- Modelled from the spec: section 4.2 insert of the absent database
module, appending the record and returning a fresh opaque identifier. -/
def create_document {α : Type} (l : List (Doc α)) (a : α) : Nat × List (Doc α) :=
  (l.length, l ++ [Doc.mk l.length a])

/-- One filter clause keyed on an optional request parameter: Python
truthiness means an absent or empty parameter adds no clause. -/
def optClause (p : Option Str) (f : Str → Bool) : Bool :=
  match p with
  | some v => if v.isEmpty then true else f v
  | none => true

/-- Signup handler from main.py: duplicate-email check through findOne
(skipped on a falsy store handle), then insertion of a user whose
password field is the reversible transform prefixing hash: to the
plaintext.  Returns the response together with the resulting store. -/
def signup (db : Option Store) (req : SignupRequest) :
    Except Err AuthResponse × Option Store :=
  let existing := match db with
    | some s => findOne s.users fun u => u.data.email == req.email
    | none => none
  match existing with
  | some _ => (Except.error Err.duplicateEmail, db)
  | none =>
    match db with
    | none => (Except.error Err.storeUnavailable, none)
    | some s =>
      let user : User :=
        { name := req.name, email := req.email,
          password_hash := str "hash:" ++ req.password,
          language := req.language }
      let r := create_document s.users user
      (Except.ok ⟨r.1, user.name, user.email⟩, some { s with users := r.2 })

/-- Login handler from main.py: findOne by email (skipped on a falsy
store handle, leaving an absent user), then the endswith check of the
stored password field against the supplied plaintext. -/
def login (db : Option Store) (req : LoginRequest) : Except Err AuthResponse :=
  let u := match db with
    | some s => findOne s.users fun d => d.data.email == req.email
    | none => none
  match u with
  | none => Except.error Err.notFound
  | some u =>
    if endsWith u.data.password_hash req.password then
      Except.ok ⟨u.id, u.data.name, u.data.email⟩
    else Except.error Err.invalidCredentials

/-- Directory filter assembled by the therapist listing: a regex clause
on the languages array holds when some element matches, a regex clause
on the optional city field fails when the field is absent, and the
free-text clause is a disjunction over the name and the specialties. -/
def dirQuery (language city q : Option Str) (t : Doc Therapist) : Bool :=
  optClause language (fun l => t.data.languages.any fun x => ciContains x l)
  && optClause city (fun c => t.data.city.any fun x => ciContains x c)
  && optClause q (fun v =>
      ciContains t.data.name v || t.data.specialties.any fun x => ciContains x v)

/-- Therapist directory listing from main.py: explicit store check, then
a filtered find capped at 50 documents. -/
def list_therapists (db : Option Store) (language city q : Option Str) :
    Except Err (List (Doc Therapist)) :=
  match db with
  | none => Except.error Err.storeUnavailable
  | some s => Except.ok (get_documents s.therapists (dirQuery language city q) 50)

/-- Raw Therapist creation payload before validation: required fields
may be missing, optional fields may be absent. -/
structure RawTherapist where
  name : Option Str := none
  email : Option Str := none
  bio : Option Str := none
  education : Option Str := none
  specialties : Option (List Str) := none
  experience_years : Option Int := none
  languages : Option (List Str) := none
  gender : Option Str := none
  city : Option Str := none
  price_per_week_inr : Option Int := none
  rating : Option ℚ := none
  photo_url : Option Str := none
  slots : Option (List Str) := none
deriving Repr, DecidableEq

/-- Validation of a Therapist payload per the schemas.py field
declarations: required fields must be present, numeric fields must meet
their declared bounds, absent optional fields take their defaults, and
the first offending field is reported.  Wrong-type values cannot be
written in this typed model, and email syntax checking lives inside the
pydantic library, outside the sources. -/
def validateTherapist (r : RawTherapist) : Except Err Therapist :=
  match r.name with
  | none => Except.error (Err.validationError (str "name"))
  | some nm =>
    match r.email with
    | none => Except.error (Err.validationError (str "email"))
    | some em =>
      let ey := r.experience_years.getD 0
      if ey < 0 then Except.error (Err.validationError (str "experience_years")) else
      let pr := r.price_per_week_inr.getD 0
      if pr < 0 then Except.error (Err.validationError (str "price_per_week_inr")) else
      let ra := r.rating.getD (24 / 5)
      if ra < 0 then Except.error (Err.validationError (str "rating")) else
      if 5 < ra then Except.error (Err.validationError (str "rating")) else
      Except.ok
        { name := nm, email := em, bio := r.bio, education := r.education,
          specialties := r.specialties.getD [], experience_years := ey,
          languages := r.languages.getD [str "English"], gender := r.gender,
          city := r.city, price_per_week_inr := pr, rating := ra,
          photo_url := r.photo_url, slots := r.slots.getD [] }

/-- Therapist creation from main.py: validation happens at request
parsing, then the record is inserted and its identifier returned. -/
def add_therapist (db : Option Store) (raw : RawTherapist) :
    Except Err Nat × Option Store :=
  match validateTherapist raw with
  | Except.error e => (Except.error e, db)
  | Except.ok t =>
    match db with
    | none => (Except.error Err.storeUnavailable, none)
    | some s =>
      let r := create_document s.therapists t
      (Except.ok r.1, some { s with therapists := r.2 })

/-- Match filter assembled by the matcher: language and city clauses as
in the directory, and a set-membership clause requiring some specialty
to equal some requested concern; an empty concerns list is falsy in
Python and adds no clause. -/
def matchQuery (req : MatchRequest) (t : Doc Therapist) : Bool :=
  optClause req.language (fun l => t.data.languages.any fun x => ciContains x l)
  && optClause req.city (fun c => t.data.city.any fun x => ciContains x c)
  && (if req.concerns.isEmpty then true
      else t.data.specialties.any fun x => req.concerns.contains x)

/-- Matching endpoint from main.py: explicit store check, then a
filtered find capped at 10 documents. -/
def matchTherapists (db : Option Store) (req : MatchRequest) :
    Except Err (List (Doc Therapist)) :=
  match db with
  | none => Except.error Err.storeUnavailable
  | some s => Except.ok ((s.therapists.filter (matchQuery req)).take 10)

/-- Plans endpoint from main.py: a fixed in-memory list that never
consults the store handle. -/
def plans (_db : Option Store) : List Plan :=
  [ { name := str "Starter", price_inr := 799, period := str "per week",
      features := [str "Unlimited chat", str "1 live session"] },
    { name := str "Standard", price_inr := 1399, period := str "per week",
      features := [str "Unlimited chat", str "2 live sessions", str "Priority support"] },
    { name := str "Premium", price_inr := 2199, period := str "per week",
      features := [str "Unlimited chat", str "4 live sessions", str "Dedicated care manager"] } ]

/-- Reviews listing from main.py: on a falsy store handle the Python
conditional expression yields an empty list and the endpoint still
answers normally. -/
def reviews (db : Option Store) : Except Err (List (Doc Review)) :=
  Except.ok (match db with
    | some s => get_documents s.reviews (fun _ => true) 50
    | none => [])

/-- Blog tag filter from main.py: a truthy tag parameter demands the
exact tag as an element of the tags array (MongoDB equality against an
array field); otherwise the filter is empty. -/
def blogQuery (tag : Option Str) (p : Doc BlogPost) : Bool :=
  match tag with
  | some t => if t.isEmpty then true else p.data.tags.contains t
  | none => true

/-- Blog listing from main.py: tag filter capped at 50 documents; on a
falsy store handle it answers normally with an empty list. -/
def blog_list (db : Option Store) (tag : Option Str) :
    Except Err (List (Doc BlogPost)) :=
  Except.ok (match db with
    | some s => get_documents s.blogposts (blogQuery tag) 50
    | none => [])

/-- Blog detail from main.py: findOne by slug (skipped on a falsy store
handle), answering NotFound for an absent document. -/
def blog_detail (db : Option Store) (slug : Str) : Except Err (Doc BlogPost) :=
  let post := match db with
    | some s => findOne s.blogposts fun p => p.data.slug == slug
    | none => none
  match post with
  | none => Except.error Err.notFound
  | some p => Except.ok p

/-- FAQ listing from main.py: unfiltered find capped at 100 documents;
on a falsy store handle it answers normally with an empty list. -/
def faq_list (db : Option Store) : Except Err (List (Doc FAQ)) :=
  Except.ok (match db with
    | some s => get_documents s.faqs (fun _ => true) 100
    | none => [])

/-- Directory filter conditions as the specification words them: each
present non-empty parameter must hold of the record, as a
case-insensitive substring of some language, of the city, or of the
name or some specialty. -/
def DirMatches (language city q : Option Str) (t : Doc Therapist) : Prop :=
  (∀ l, language = some l → l ≠ [] → ∃ x ∈ t.data.languages, lower l <:+: lower x) ∧
  (∀ c, city = some c → c ≠ [] → ∃ x, t.data.city = some x ∧ lower c <:+: lower x) ∧
  (∀ v, q = some v → v ≠ [] →
    (lower v <:+: lower t.data.name ∨ ∃ x ∈ t.data.specialties, lower v <:+: lower x))

/-- Match request conditions as the specification words them: language
and city as case-insensitive substrings, and exact-element intersection
of the specialties with the requested concerns. -/
def MatchSpec (req : MatchRequest) (t : Doc Therapist) : Prop :=
  (∀ l, req.language = some l → l ≠ [] → ∃ x ∈ t.data.languages, lower l <:+: lower x) ∧
  (∀ c, req.city = some c → c ≠ [] → ∃ x, t.data.city = some x ∧ lower c <:+: lower x) ∧
  (req.concerns ≠ [] → ∃ x ∈ t.data.specialties, x ∈ req.concerns)

/-! Helper lemmas about the matching primitives and the assembled
filters, shared by the claim theorems below. -/

theorem ciContains_iff (hay pat : Str) :
    ciContains hay pat = true ↔ lower pat <:+: lower hay := by
  simp [ciContains]

theorem endsWith_iff (s tl : Str) : endsWith s tl = true ↔ tl <:+ s := by
  simp [endsWith]

theorem optClause_iff (p : Option Str) (f : Str → Bool) :
    optClause p f = true ↔ ∀ v, p = some v → v ≠ [] → f v = true := by
  cases p with
  | none => simp [optClause]
  | some v =>
    by_cases h : v = [] <;> simp [optClause, h, List.isEmpty_iff]

theorem option_any_iff {α : Type} (f : α → Bool) (o : Option α) :
    o.any f = true ↔ ∃ x, o = some x ∧ f x = true := by
  cases o <;> simp

theorem dirQuery_iff (language city q : Option Str) (t : Doc Therapist) :
    dirQuery language city q t = true ↔ DirMatches language city q t := by
  simp only [dirQuery, DirMatches, Bool.and_eq_true, optClause_iff,
    List.any_eq_true, Bool.or_eq_true, ciContains_iff, option_any_iff, and_assoc]

theorem matchQuery_iff (req : MatchRequest) (t : Doc Therapist) :
    matchQuery req t = true ↔ MatchSpec req t := by
  have hc : (if req.concerns.isEmpty then true
      else t.data.specialties.any fun x => req.concerns.contains x) = true ↔
      (req.concerns ≠ [] → ∃ x ∈ t.data.specialties, x ∈ req.concerns) := by
    by_cases h : req.concerns = [] <;>
      simp [h, List.isEmpty_iff, List.any_eq_true]
  simp only [matchQuery, MatchSpec, Bool.and_eq_true, optClause_iff,
    List.any_eq_true, ciContains_iff, option_any_iff, hc, and_assoc]

theorem find?_eq_of_mem_pairwise {α β : Type} [BEq β] [LawfulBEq β]
    (f : α → β) (l : List α) (a : α) (ha : a ∈ l)
    (hp : l.Pairwise fun x y => f x ≠ f y) :
    l.find? (fun x => f x == f a) = some a := by
  induction l with
  | nil => cases ha
  | cons b l ih =>
    rcases List.pairwise_cons.mp hp with ⟨hb, hl⟩
    rcases List.mem_cons.mp ha with rfl | ha'
    · simp
    · have hne : f b ≠ f a := hb a ha'
      rw [List.find?_cons_of_neg _ (by simp [hne])]
      exact ih ha' hl

/-- The user record signup builds and stores for a request. -/
def signupUser (req : SignupRequest) : User :=
  { name := req.name, email := req.email,
    password_hash := str "hash:" ++ req.password,
    language := req.language }

theorem signup_duplicate (s : Store) (req : SignupRequest)
    (h : ∃ u ∈ s.users, u.data.email = req.email) :
    signup (some s) req = (Except.error Err.duplicateEmail, some s) := by
  obtain ⟨u, hu, he⟩ := h
  have hsome : (s.users.find? fun d => d.data.email == req.email).isSome :=
    List.find?_isSome.mpr ⟨u, hu, by simp [he]⟩
  obtain ⟨v, hv⟩ := Option.isSome_iff_exists.mp hsome
  simp [signup, findOne, hv]

theorem signup_fresh (s : Store) (req : SignupRequest)
    (h : ∀ u ∈ s.users, u.data.email ≠ req.email) :
    signup (some s) req =
      (Except.ok ⟨s.users.length, req.name, req.email⟩,
       some { s with users := s.users ++ [⟨s.users.length, signupUser req⟩] }) := by
  have hf : (s.users.find? fun d => d.data.email == req.email) = none := by
    rw [List.find?_eq_none]
    intro u hu
    simp [h u hu]
  simp [signup, findOne, hf, create_document, signupUser]

theorem signup_ok_inv (s s' : Store) (req : SignupRequest) (r : AuthResponse)
    (h : signup (some s) req = (Except.ok r, some s')) :
    (∀ u ∈ s.users, u.data.email ≠ req.email) ∧
    r = ⟨s.users.length, req.name, req.email⟩ ∧
    s' = { s with users := s.users ++ [⟨s.users.length, signupUser req⟩] } := by
  cases hfind : s.users.find? fun d => d.data.email == req.email with
  | some u =>
    simp [signup, findOne, hfind] at h
  | none =>
    have hn : ∀ u ∈ s.users, u.data.email ≠ req.email := by
      intro u hu he
      have := List.find?_eq_none.mp hfind u hu
      simp [he] at this
    have heq := signup_fresh s req hn
    rw [heq] at h
    obtain ⟨hr, hs'⟩ := Prod.mk.injEq .. ▸ h
    exact ⟨hn, (Except.ok.injEq .. ▸ hr).symm, (Option.some.injEq .. ▸ hs').symm⟩

/-- Signup never creates a duplicate email: it preserves pairwise
distinctness of the stored user emails (the claims about login at a
reachable store state rely on this invariant). -/
theorem signup_preserves_distinct_emails (s s' : Store) (req : SignupRequest)
    (r : Except Err AuthResponse) (h : signup (some s) req = (r, some s'))
    (hs : s.users.Pairwise fun a b => a.data.email ≠ b.data.email) :
    s'.users.Pairwise fun a b => a.data.email ≠ b.data.email := by
  cases hex : decide (∃ u ∈ s.users, u.data.email = req.email) with
  | true =>
    have hdup := signup_duplicate s req (of_decide_eq_true hex)
    rw [hdup] at h
    obtain ⟨-, hs'⟩ := Prod.mk.injEq .. ▸ h
    have : s = s' := Option.some.injEq .. ▸ hs'
    exact this ▸ hs
  | false =>
    have hn : ∀ u ∈ s.users, u.data.email ≠ req.email := by
      have := of_decide_eq_false hex
      push_neg at this
      exact this
    have heq := signup_fresh s req hn
    rw [heq] at h
    obtain ⟨-, hs'⟩ := Prod.mk.injEq .. ▸ h
    have hss : ({ s with users := s.users ++ [⟨s.users.length, signupUser req⟩] } : Store) = s' :=
      Option.some.injEq .. ▸ hs'
    rw [← hss]
    refine List.pairwise_append.mpr ⟨hs, List.pairwise_singleton .., ?_⟩
    intro a ha b hb
    rw [List.mem_singleton.mp hb]
    exact hn a ha

theorem login_findOne_some (s : Store) (req : LoginRequest) (u : Doc User)
    (h : findOne s.users (fun d => d.data.email == req.email) = some u) :
    login (some s) req =
      if endsWith u.data.password_hash req.password = true then
        Except.ok ⟨u.id, u.data.name, u.data.email⟩
      else Except.error Err.invalidCredentials := by
  simp [login, h]

/-! Claim theorems. -/

/-- C1, counterexample: with the store handle uninitialized, the reviews
listing answers normally with an empty item list instead of failing
with the StoreUnavailable error, refuting the claim that every
data-dependent endpoint degrades to StoreUnavailable. -/
theorem claim1_counterexample :
    reviews none = Except.ok [] ∧
    reviews none ≠ Except.error Err.storeUnavailable :=
  ⟨rfl, fun h => Except.noConfusion h⟩

/-- C1, amended: with the store handle uninitialized, the therapist
listing and the matcher fail with StoreUnavailable, and signup fails
with StoreUnavailable at the modelled insert; but the reviews, blog and
FAQ listings answer normally with an empty item list, and blog detail
and login fail with NotFound instead. -/
theorem claim1_amended :
    (∀ language city q,
      list_therapists none language city q = Except.error Err.storeUnavailable) ∧
    (∀ req, matchTherapists none req = Except.error Err.storeUnavailable) ∧
    (∀ req, signup none req = (Except.error Err.storeUnavailable, none)) ∧
    (∀ req, login none req = Except.error Err.notFound) ∧
    reviews none = Except.ok [] ∧
    (∀ tag, blog_list none tag = Except.ok []) ∧
    (∀ slug, blog_detail none slug = Except.error Err.notFound) ∧
    faq_list none = Except.ok [] :=
  ⟨fun _ _ _ => rfl, fun _ => rfl, fun _ => rfl, fun _ => rfl,
    rfl, fun _ => rfl, fun _ => rfl, rfl⟩

/-- C2: login fails with NotFound when no stored user carries the
requested email; when findOne yields a user record for the email, login
fails with InvalidCredentials when the stored password field does not
end with the supplied plaintext password, and otherwise returns that
record identifier, name and email. -/
theorem claim2_login_cases (s : Store) (req : LoginRequest) :
    ((∀ u ∈ s.users, u.data.email ≠ req.email) →
      login (some s) req = Except.error Err.notFound) ∧
    (∀ u, findOne s.users (fun d => d.data.email == req.email) = some u →
      (¬ req.password <:+ u.data.password_hash →
        login (some s) req = Except.error Err.invalidCredentials) ∧
      (req.password <:+ u.data.password_hash →
        login (some s) req = Except.ok ⟨u.id, u.data.name, u.data.email⟩)) := by
  constructor
  · intro h
    have hf : (s.users.find? fun d => d.data.email == req.email) = none := by
      rw [List.find?_eq_none]
      intro u hu
      simp [h u hu]
    simp [login, findOne, hf]
  · intro u hu
    constructor
    · intro hn
      have he : endsWith u.data.password_hash req.password = false :=
        Bool.eq_false_iff.mpr fun hc => hn ((endsWith_iff _ _).mp hc)
      simp [login, hu, he]
    · intro hsfx
      have he : endsWith u.data.password_hash req.password = true :=
        (endsWith_iff _ _).mpr hsfx
      simp [login, hu, he]

/-- Concrete one-user store for the authentication witnesses. -/
def userW : Doc User :=
  ⟨0, { name := str "Ada", email := str "ada@example.com",
        password_hash := str "hash:pw1" }⟩

/-- Concrete store holding only userW. -/
def loginStoreW : Store := { users := [userW] }

/-- C2 witness: the three login outcomes at the concrete one-user store. -/
theorem claim2_witness :
    login (some loginStoreW) ⟨str "none@example.com", str "pw1"⟩ =
      Except.error Err.notFound ∧
    login (some loginStoreW) ⟨str "ada@example.com", str "bad"⟩ =
      Except.error Err.invalidCredentials ∧
    login (some loginStoreW) ⟨str "ada@example.com", str "pw1"⟩ =
      Except.ok ⟨0, str "Ada", str "ada@example.com"⟩ :=
  ⟨(claim2_login_cases loginStoreW ⟨str "none@example.com", str "pw1"⟩).1 (by decide),
   ((claim2_login_cases loginStoreW ⟨str "ada@example.com", str "bad"⟩).2 userW
     (by decide)).1 (by decide),
   ((claim2_login_cases loginStoreW ⟨str "ada@example.com", str "pw1"⟩).2 userW
     (by decide)).2 (by decide)⟩

/-- C3: signup fails with DuplicateEmail and leaves the store unchanged
when some stored user already carries the email; otherwise it stores
the new user record and answers with the fresh identifier, name and
email; and after any successful signup, a second signup with the same
email always fails with DuplicateEmail whatever its other fields. -/
theorem claim3_signup_cases (s : Store) (req : SignupRequest) :
    ((∃ u ∈ s.users, u.data.email = req.email) →
      signup (some s) req = (Except.error Err.duplicateEmail, some s)) ∧
    ((∀ u ∈ s.users, u.data.email ≠ req.email) →
      signup (some s) req =
        (Except.ok ⟨s.users.length, req.name, req.email⟩,
         some { s with users := s.users ++ [⟨s.users.length, signupUser req⟩] })) ∧
    (∀ req' r s', req'.email = req.email →
      signup (some s) req = (Except.ok r, some s') →
      (signup (some s') req').1 = Except.error Err.duplicateEmail) := by
  refine ⟨signup_duplicate s req, signup_fresh s req, ?_⟩
  intro req' r s' he hs
  obtain ⟨-, -, hs'⟩ := signup_ok_inv s s' req r hs
  subst hs'
  have hmem : ∃ u ∈ ({ s with users :=
      s.users ++ [⟨s.users.length, signupUser req⟩] } : Store).users,
      u.data.email = req'.email := by
    refine ⟨⟨s.users.length, signupUser req⟩, by simp, ?_⟩
    simp [signupUser, he]
  rw [signup_duplicate _ req' hmem]

/-- Concrete signup request for the signup witnesses. -/
def signupReqW : SignupRequest :=
  { name := str "Ada", email := str "ada@example.com", password := str "pw1" }

/-- Second concrete signup request sharing the email of signupReqW but
differing in every other field. -/
def signupReqW2 : SignupRequest :=
  { name := str "Bob", email := str "ada@example.com", password := str "pw2",
    language := str "hi" }

/-- C3 witness: a first signup at the empty store succeeds and stores
the record, and the second signup with the same email fails with
DuplicateEmail. -/
theorem claim3_witness :
    signup (some {}) signupReqW =
      (Except.ok ⟨0, str "Ada", str "ada@example.com"⟩, some loginStoreW) ∧
    (signup (some loginStoreW) signupReqW2).1 = Except.error Err.duplicateEmail :=
  ⟨(claim3_signup_cases {} signupReqW).2.1 (by decide),
   (claim3_signup_cases {} signupReqW).2.2 signupReqW2
     ⟨0, str "Ada", str "ada@example.com"⟩ loginStoreW (by decide) rfl⟩

/-- C4: after a successful signup, login with the same email and
password succeeds and returns the new identifier, name and email,
because the stored transform ends with the plaintext password; and
login with any password that is not a suffix of the stored transform
fails with InvalidCredentials. -/
theorem claim4_roundtrip (s s' : Store) (req : SignupRequest) (r : AuthResponse)
    (h : signup (some s) req = (Except.ok r, some s')) :
    login (some s') { email := req.email, password := req.password } =
      Except.ok ⟨r.id, req.name, req.email⟩ ∧
    ∀ p', ¬ p' <:+ str "hash:" ++ req.password →
      login (some s') { email := req.email, password := p' } =
        Except.error Err.invalidCredentials := by
  obtain ⟨hn, hr, hs'⟩ := signup_ok_inv s s' req r h
  subst hs'
  subst hr
  have hf : (s.users.find? fun d => d.data.email == req.email) = none := by
    rw [List.find?_eq_none]
    intro u hu
    simp [hn u hu]
  have hfind : findOne (s.users ++ [(⟨s.users.length, signupUser req⟩ : Doc User)])
      (fun d => d.data.email == req.email) =
      some (⟨s.users.length, signupUser req⟩ : Doc User) := by
    unfold findOne
    rw [List.find?_append, hf]
    simp [signupUser]
  constructor
  · have he : endsWith (str "hash:" ++ req.password) req.password = true :=
      (endsWith_iff _ _).mpr (List.suffix_append _ _)
    rw [login_findOne_some _ _ _ hfind]
    simp [signupUser, he]
  · intro p' hp'
    have he : endsWith (str "hash:" ++ req.password) p' = false :=
      Bool.eq_false_iff.mpr fun hc => hp' ((endsWith_iff _ _).mp hc)
    rw [login_findOne_some _ _ _ hfind]
    simp [signupUser, he]

/-- C4 witness: the round trip at the empty store with the concrete
signup request, plus the rejection of a wrong password. -/
theorem claim4_witness :
    login (some loginStoreW) { email := str "ada@example.com", password := str "pw1" } =
      Except.ok ⟨0, str "Ada", str "ada@example.com"⟩ ∧
    login (some loginStoreW) { email := str "ada@example.com", password := str "bad" } =
      Except.error Err.invalidCredentials :=
  ⟨(claim4_roundtrip {} loginStoreW signupReqW ⟨0, str "Ada", str "ada@example.com"⟩
      rfl).1,
   (claim4_roundtrip {} loginStoreW signupReqW ⟨0, str "Ada", str "ada@example.com"⟩
      rfl).2 (str "bad") (by decide)⟩

/-- C5: a stored therapist appears in the match result only if it meets
every constraint of the present parameters simultaneously (language and
city as case-insensitive substrings, concerns by exact-element
intersection with the specialties); a request with all three absent
returns the first up-to-10 stored therapists unfiltered; and the result
never holds more than 10 records. -/
theorem claim5_match (s : Store) (req : MatchRequest) (res : List (Doc Therapist))
    (h : matchTherapists (some s) req = Except.ok res) :
    (∀ t ∈ res, t ∈ s.therapists ∧ MatchSpec req t) ∧
    (req.language = none → req.city = none → req.concerns = [] →
      res = s.therapists.take 10) ∧
    res.length ≤ 10 := by
  have hres : res = (s.therapists.filter (matchQuery req)).take 10 := by
    have h' := h
    simp [matchTherapists] at h'
    exact h'.symm
  subst hres
  refine ⟨?_, ?_, ?_⟩
  · intro t ht
    have ht' := List.take_subset _ _ ht
    have hm := List.mem_filter.mp ht'
    exact ⟨hm.1, (matchQuery_iff req t).mp hm.2⟩
  · intro hl hc hcc
    have hq : ∀ t ∈ s.therapists, matchQuery req t = true := by
      intro t _
      simp [matchQuery, optClause, hl, hc, hcc]
    rw [List.filter_eq_self.mpr hq]
  · rw [List.length_take]
    exact min_le_left _ _

/-- Concrete therapist for the matching and directory witnesses. -/
def therapistW : Doc Therapist :=
  ⟨0, { name := str "Dr Rao", email := str "rao@example.com",
        specialties := [str "anxiety", str "depression"],
        languages := [str "English", str "Hindi"],
        city := some (str "Bangalore") }⟩

/-- Concrete store holding only therapistW. -/
def matchStoreW : Store := { therapists := [therapistW] }

/-- Concrete match request exercising all three constraints. -/
def matchReqW : MatchRequest :=
  { concerns := [str "anxiety"], language := some (str "eng"),
    city := some (str "bang") }

/-- C5 witness: the concrete therapist is returned by the matcher and
satisfies all three constraints of the concrete request. -/
theorem claim5_witness :
    therapistW ∈ matchStoreW.therapists ∧ MatchSpec matchReqW therapistW :=
  (claim5_match matchStoreW matchReqW [therapistW] rfl).1 therapistW
    (List.mem_singleton_self therapistW)

/-- C6: every therapist returned by the directory listing is stored and
meets the filter conditions (language and city as case-insensitive
substrings, free text against the name or some specialty); when at most
50 records match, every stored matching therapist is returned; with 60
matching records exactly 50 are returned; and city bang matches
Bangalore but not Delhi. -/
theorem claim6_directory (s : Store) (language city q : Option Str)
    (items : List (Doc Therapist))
    (h : list_therapists (some s) language city q = Except.ok items) :
    (∀ t ∈ items, t ∈ s.therapists ∧ DirMatches language city q t) ∧
    ((s.therapists.filter (dirQuery language city q)).length ≤ 50 →
      ∀ t ∈ s.therapists, DirMatches language city q t → t ∈ items) ∧
    ((s.therapists.filter (dirQuery language city q)).length = 60 →
      items.length = 50) ∧
    ciContains (str "Bangalore") (str "bang") = true ∧
    ciContains (str "Delhi") (str "bang") = false := by
  have hit : items = (s.therapists.filter (dirQuery language city q)).take 50 := by
    have h' := h
    simp [list_therapists, get_documents] at h'
    exact h'.symm
  subst hit
  refine ⟨?_, ?_, ?_, by decide, by decide⟩
  · intro t ht
    have ht' := List.take_subset _ _ ht
    have hm := List.mem_filter.mp ht'
    exact ⟨hm.1, (dirQuery_iff language city q t).mp hm.2⟩
  · intro hle t ht hd
    rw [List.take_of_length_le hle]
    exact List.mem_filter.mpr ⟨ht, (dirQuery_iff language city q t).mpr hd⟩
  · intro h60
    rw [List.length_take, h60]
    omega

/-- C6 witness: the concrete therapist with city Bangalore is returned
by the directory listing filtered by city bang and meets the worded
filter conditions. -/
theorem claim6_witness :
    therapistW ∈ matchStoreW.therapists ∧
    DirMatches none (some (str "bang")) none therapistW :=
  (claim6_directory matchStoreW none (some (str "bang")) none [therapistW] rfl).1
    therapistW (List.mem_singleton_self therapistW)

/-- C8: the plans endpoint returns, for every store state including the
absent store, exactly three entries named Starter, Standard and Premium
priced 799, 1399 and 2199, each with the period per week. -/
theorem claim8_plans (db : Option Store) :
    (plans db).length = 3 ∧
    (plans db).map (fun p => (p.name, p.price_inr)) =
      [(str "Starter", 799), (str "Standard", 1399), (str "Premium", 2199)] ∧
    (plans db).map Plan.period = [str "per week", str "per week", str "per week"] :=
  ⟨rfl, rfl, rfl⟩

theorem validateTherapist_ok_bounds (raw : RawTherapist) (t : Therapist)
    (h : validateTherapist raw = Except.ok t) :
    0 ≤ t.rating ∧ t.rating ≤ 5 ∧ 0 ≤ t.experience_years ∧
    0 ≤ t.price_per_week_inr := by
  simp only [validateTherapist] at h
  split at h
  · exact Except.noConfusion h
  split at h
  · exact Except.noConfusion h
  split at h
  · exact Except.noConfusion h
  split at h
  · exact Except.noConfusion h
  split at h
  · exact Except.noConfusion h
  split at h
  · exact Except.noConfusion h
  injection h with h
  subst h
  rename_i hey hpr hra1 hra2
  exact ⟨le_of_not_lt hra1, le_of_not_lt hra2,
    le_of_not_lt hey, le_of_not_lt hpr⟩

theorem validateTherapist_rejects (raw : RawTherapist)
    (h : raw.name = none ∨ raw.email = none ∨
      (∃ n, raw.experience_years = some n ∧ n < 0) ∨
      (∃ n, raw.price_per_week_inr = some n ∧ n < 0) ∨
      (∃ x, raw.rating = some x ∧ (x < 0 ∨ 5 < x))) :
    ∃ f, validateTherapist raw = Except.error (Err.validationError f) := by
  rcases h with hn | he | ⟨n, hn, hlt⟩ | ⟨n, hn, hlt⟩ | ⟨x, hx, hlt⟩
  · exact ⟨str "name", by simp [validateTherapist, hn]⟩
  · cases hq : raw.name with
    | none => exact ⟨str "name", by simp [validateTherapist, hq]⟩
    | some nm => exact ⟨str "email", by simp [validateTherapist, hq, he]⟩
  · cases hq : raw.name with
    | none => exact ⟨str "name", by simp [validateTherapist, hq]⟩
    | some nm =>
      cases hq2 : raw.email with
      | none => exact ⟨str "email", by simp [validateTherapist, hq, hq2]⟩
      | some em =>
        exact ⟨str "experience_years", by simp [validateTherapist, hq, hq2, hn, hlt]⟩
  · cases hq : raw.name with
    | none => exact ⟨str "name", by simp [validateTherapist, hq]⟩
    | some nm =>
      cases hq2 : raw.email with
      | none => exact ⟨str "email", by simp [validateTherapist, hq, hq2]⟩
      | some em =>
        by_cases hey : raw.experience_years.getD 0 < 0
        · exact ⟨str "experience_years", by simp [validateTherapist, hq, hq2, hey]⟩
        · exact ⟨str "price_per_week_inr",
            by simp [validateTherapist, hq, hq2, hey, hn, hlt]⟩
  · cases hq : raw.name with
    | none => exact ⟨str "name", by simp [validateTherapist, hq]⟩
    | some nm =>
      cases hq2 : raw.email with
      | none => exact ⟨str "email", by simp [validateTherapist, hq, hq2]⟩
      | some em =>
        by_cases hey : raw.experience_years.getD 0 < 0
        · exact ⟨str "experience_years", by simp [validateTherapist, hq, hq2, hey]⟩
        by_cases hpr : raw.price_per_week_inr.getD 0 < 0
        · exact ⟨str "price_per_week_inr",
            by simp [validateTherapist, hq, hq2, hey, hpr]⟩
        rcases hlt with hlt | hlt
        · exact ⟨str "rating", by simp [validateTherapist, hq, hq2, hey, hpr, hx, hlt]⟩
        · have hne : ¬ x < 0 := by linarith
          exact ⟨str "rating",
            by simp [validateTherapist, hq, hq2, hey, hpr, hx, hne, hlt]⟩

/-- C7: validation accepts only payloads with rating inside the zero to
five range, non-negative experience and non-negative price; a payload
breaking a bound or missing a required field fails with a
ValidationError naming some field; a validation failure stores nothing;
and a successful creation keeps every stored rating inside the range. -/
theorem claim7_validation :
    (∀ raw t, validateTherapist raw = Except.ok t →
      0 ≤ t.rating ∧ t.rating ≤ 5 ∧ 0 ≤ t.experience_years ∧
      0 ≤ t.price_per_week_inr) ∧
    (∀ raw, (raw.name = none ∨ raw.email = none ∨
        (∃ n, raw.experience_years = some n ∧ n < 0) ∨
        (∃ n, raw.price_per_week_inr = some n ∧ n < 0) ∨
        (∃ x, raw.rating = some x ∧ (x < 0 ∨ 5 < x))) →
      ∃ f, validateTherapist raw = Except.error (Err.validationError f)) ∧
    (∀ db raw e, validateTherapist raw = Except.error e →
      add_therapist db raw = (Except.error e, db)) ∧
    (∀ s s' raw i, add_therapist (some s) raw = (Except.ok i, some s') →
      (∀ t ∈ s.therapists, 0 ≤ t.data.rating ∧ t.data.rating ≤ 5) →
      ∀ t ∈ s'.therapists, 0 ≤ t.data.rating ∧ t.data.rating ≤ 5) := by
  refine ⟨validateTherapist_ok_bounds, validateTherapist_rejects, ?_, ?_⟩
  · intro db raw e h
    simp [add_therapist, h]
  · intro s s' raw i h hinv t ht
    cases hv : validateTherapist raw with
    | error e => simp [add_therapist, hv] at h
    | ok tv =>
      simp [add_therapist, hv, create_document] at h
      obtain ⟨-, hs'⟩ := h
      rw [← hs'] at ht
      simp only [List.mem_append, List.mem_singleton] at ht
      rcases ht with ht | ht
      · exact hinv t ht
      · obtain ⟨hb1, hb2, -, -⟩ := validateTherapist_ok_bounds raw tv hv
        rw [ht]
        exact ⟨hb1, hb2⟩

/-- Concrete valid therapist creation payload for the C7 witness. -/
def rawTherapistW : RawTherapist :=
  { name := some (str "Dr Rao"), email := some (str "rao@example.com"),
    rating := some 3, experience_years := some 4,
    price_per_week_inr := some 1500 }

/-- Validated record the concrete payload produces. -/
def therapistValW : Therapist :=
  { name := str "Dr Rao", email := str "rao@example.com",
    experience_years := 4, price_per_week_inr := 1500, rating := 3 }

/-- C7 witness: the validated concrete record meets all numeric bounds. -/
theorem claim7_witness :
    0 ≤ therapistValW.rating ∧ therapistValW.rating ≤ 5 ∧
    0 ≤ therapistValW.experience_years ∧ 0 ≤ therapistValW.price_per_week_inr :=
  claim7_validation.1 rawTherapistW therapistValW rfl

/-- C9: at any store whose user emails are pairwise distinct (signup
preserves this, see signup_preserves_distinct_emails), login with a
stored user email and the empty password succeeds and returns that
record identifier, name and email, because the endswith check accepts
the empty string as a suffix of every stored password field. -/
theorem claim9_empty_password (s : Store) (u : Doc User) (hu : u ∈ s.users)
    (huniq : s.users.Pairwise fun a b => a.data.email ≠ b.data.email) :
    login (some s) { email := u.data.email, password := [] } =
      Except.ok ⟨u.id, u.data.name, u.data.email⟩ := by
  have hfind : List.find? (fun d => d.data.email == u.data.email) s.users = some u :=
    find?_eq_of_mem_pairwise (fun d : Doc User => d.data.email) s.users u hu huniq
  have he : endsWith u.data.password_hash [] = true :=
    (endsWith_iff _ _).mpr List.nil_suffix
  simp [login, findOne, hfind, he]

/-- C9 witness: empty-password login at the concrete one-user store. -/
theorem claim9_witness :
    login (some loginStoreW) { email := str "ada@example.com", password := [] } =
      Except.ok ⟨0, str "Ada", str "ada@example.com"⟩ :=
  claim9_empty_password loginStoreW userW (List.mem_singleton_self userW)
    (List.pairwise_singleton ..)

/-- Concrete blog post whose tags hold exactly the word Anxiety. -/
def samplePost : Doc BlogPost :=
  ⟨0, { title := str "Calm", slug := str "calm", excerpt := str "x",
        content := str "y", tags := [str "Anxiety"] }⟩

/-- Concrete store holding only samplePost. -/
def blogStoreW : Store := { blogposts := [samplePost] }

/-- C10: with a non-empty tag parameter the blog listing returns a post
only if its tags list holds the parameter as an exact element; at the
concrete store, the case-differing value anxiety and the substring Anx
match nothing while the exact value Anxiety returns the post, so the
filter is exact and case-sensitive, unlike the directory filters. -/
theorem claim10_blog_tag (s : Store) (tg : Str) (ht : tg ≠ []) :
    (∀ items, blog_list (some s) (some tg) = Except.ok items →
      ∀ p ∈ items, tg ∈ p.data.tags) ∧
    blog_list (some blogStoreW) (some (str "anxiety")) = Except.ok [] ∧
    blog_list (some blogStoreW) (some (str "Anx")) = Except.ok [] ∧
    blog_list (some blogStoreW) (some (str "Anxiety")) = Except.ok [samplePost] := by
  refine ⟨?_, rfl, rfl, rfl⟩
  intro items hitems p hp
  have hit : items = (s.blogposts.filter (blogQuery (some tg))).take 50 := by
    simp [blog_list, get_documents] at hitems
    exact hitems.symm
  subst hit
  have hp' := List.take_subset _ _ hp
  have hm := List.mem_filter.mp hp'
  have hq := hm.2
  simp [blogQuery, List.isEmpty_iff, ht] at hq
  exact hq

/-- C10 witness: the exact tag value returns the concrete post. -/
theorem claim10_witness :
    blog_list (some blogStoreW) (some (str "Anxiety")) = Except.ok [samplePost] :=
  (claim10_blog_tag blogStoreW (str "Anxiety") (by decide)).2.2.2

end BetterMann
